import Mathlib

/-
Verification development for the display-profile tool of this repository
(`gui_utility.xrandr` and `gui_utility.output_profile`).

Modelling conventions, used throughout:
- Python `int` is `Int` (widths/heights/positions), non-negative counts are
  sometimes `Nat` where the source can only produce non-negative values
  (digit runs from the parser).
- Python `decimal.Decimal` is `ℚ`; `Decimal` compares by numeric value,
  which is exactly `ℚ` equality/order.  The printed representation of a
  `Decimal` (which remembers trailing zeros) is not modelled; the only
  place it matters is the textual `--rate` command argument, and the
  theorems below never inspect that argument for a non-integral rate.
- `None`-able fields are `Option`.
- Python `dict` (insertion ordered) is a `List (key × value)` with the
  keys understood to be distinct; `frozenset` is a `List` of distinct
  elements (the parser builds it with `List.dedup`).
- Functions that can raise return `Except`; the error constructors carry
  the names the specification gives to the failure conditions
  (the source raises `AssertionError`/`LookupError`/`KeyError` etc. at the
  corresponding places).
- Logging has no observable effect and is not modelled.
-/

namespace Gui

/-- xrandr.Position: screen coordinates (dataclass, frozen, order=True). -/
structure Position where
  x : Int
  y : Int
deriving DecidableEq, Repr

/-- Position.to_cli_str: the "XxY" form used for the --pos argument. -/
def Position.toCliStr (p : Position) : String :=
  toString p.x ++ "x" ++ toString p.y

/-- xrandr.Resolution (dataclass, frozen, order=True: lexicographic (width, height)). -/
structure Resolution where
  width : Int
  height : Int
deriving DecidableEq, Repr

/-- Resolution.__str__: "WxH". -/
def Resolution.str (r : Resolution) : String :=
  toString r.width ++ "x" ++ toString r.height

/-- xrandr.Mode: a resolution plus an optional refresh rate (a Decimal in the
source, modelled as ℚ). -/
structure Mode where
  resolution : Resolution
  refresh_rate : Option ℚ
deriving DecidableEq, Repr

/-- Strict order on Resolution generated by @dataclass(order=True):
tuple comparison (width, height). -/
def resLtB (a b : Resolution) : Bool :=
  a.width < b.width || (a.width == b.width && a.height < b.height)

/-- Comparison of the optional refresh rates inside Mode's tuple comparison.
Python compares two Decimals by value and treats two Nones as equal; it
raises TypeError when exactly one side is None.  That raising case is
modelled as "None is smallest"; every theorem that sorts modes restricts
itself to modes whose refresh rates are all present, where this matches
Python exactly. -/
def rateLtB : Option ℚ → Option ℚ → Bool
  | some x, some y => decide (x < y)
  | none, some _ => true
  | _, none => false

/-- Strict order on Mode generared by @dataclass(order=True): tuple
comparison (resolution, refresh_rate). -/
def modeLtB (a b : Mode) : Bool :=
  resLtB a.resolution b.resolution ||
    (a.resolution == b.resolution && rateLtB a.refresh_rate b.refresh_rate)

/-- The order in which Python's sorted(..., reverse=True) leaves two distinct
elements: the earlier element is not smaller than the later one. -/
def modeDescR (a b : Mode) : Prop := modeLtB a b = false

instance : DecidableRel modeDescR := fun a b =>
  inferInstanceAs (Decidable (modeLtB a b = false))

theorem resLtB_iff {a b : Resolution} :
    resLtB a b = true ↔
      a.width < b.width ∨ (a.width = b.width ∧ a.height < b.height) := by
  simp [resLtB]

theorem rateLtB_iff {a b : Option ℚ} :
    rateLtB a b = true ↔
      (∃ x y, a = some x ∧ b = some y ∧ x < y) ∨ (a = none ∧ ∃ y, b = some y) := by
  cases a <;> cases b <;> simp [rateLtB]

theorem modeLtB_iff {a b : Mode} :
    modeLtB a b = true ↔
      resLtB a.resolution b.resolution = true ∨
        (a.resolution = b.resolution ∧ rateLtB a.refresh_rate b.refresh_rate = true) := by
  simp [modeLtB]

theorem resLtB_irrefl (a : Resolution) : resLtB a a = false := by
  cases hx : resLtB a a
  · rfl
  · rw [resLtB_iff] at hx
    omega

theorem resLtB_asymm {a b : Resolution} (h : resLtB a b = true) :
    resLtB b a = false := by
  rw [resLtB_iff] at h
  cases hx : resLtB b a
  · rfl
  · rw [resLtB_iff] at hx
    omega

theorem resLtB_trich (a b : Resolution) :
    resLtB a b = true ∨ resLtB b a = true ∨ a = b := by
  rcases a with ⟨aw, ah⟩
  rcases b with ⟨bw, bh⟩
  simp only [resLtB_iff, Resolution.mk.injEq]
  omega

theorem resLtB_trans {a b c : Resolution} (h1 : resLtB a b = true)
    (h2 : resLtB b c = true) : resLtB a c = true := by
  rw [resLtB_iff] at *
  omega

theorem rateLtB_asymm {a b : Option ℚ} (h : rateLtB a b = true) :
    rateLtB b a = false := by
  cases a <;> cases b <;> simp_all [rateLtB]
  linarith

theorem rateLtB_trich (a b : Option ℚ) :
    rateLtB a b = true ∨ rateLtB b a = true ∨ a = b := by
  cases a <;> cases b <;> simp_all [rateLtB]
  rcases lt_trichotomy (α := ℚ) _ _ with h | h | h
  · exact Or.inl h
  · exact Or.inr (Or.inr h)
  · exact Or.inr (Or.inl h)

theorem rateLtB_trans {a b c : Option ℚ} (h1 : rateLtB a b = true)
    (h2 : rateLtB b c = true) : rateLtB a c = true := by
  cases a <;> cases b <;> cases c <;> simp_all [rateLtB]
  linarith

theorem modeLtB_asymm {a b : Mode} (h : modeLtB a b = true) :
    modeLtB b a = false := by
  rw [modeLtB_iff] at h
  cases hx : modeLtB b a
  · rfl
  · exfalso
    rw [modeLtB_iff] at hx
    rcases h with h | ⟨he, hr⟩ <;> rcases hx with hx | ⟨hxe, hxr⟩
    · exact absurd hx (by simp [resLtB_asymm h])
    · rw [hxe] at h
      exact absurd h (by simp [resLtB_irrefl])
    · rw [he] at hx
      exact absurd hx (by simp [resLtB_irrefl])
    · exact absurd hxr (by simp [rateLtB_asymm hr])

theorem modeLtB_trich (a b : Mode) :
    modeLtB a b = true ∨ modeLtB b a = true ∨ a = b := by
  rcases a with ⟨ra, fa⟩
  rcases b with ⟨rb, fb⟩
  rcases resLtB_trich ra rb with h | h | h
  · exact Or.inl (modeLtB_iff.mpr (Or.inl h))
  · exact Or.inr (Or.inl (modeLtB_iff.mpr (Or.inl h)))
  · subst h
    rcases rateLtB_trich fa fb with h | h | h
    · exact Or.inl (modeLtB_iff.mpr (Or.inr ⟨rfl, h⟩))
    · exact Or.inr (Or.inl (modeLtB_iff.mpr (Or.inr ⟨rfl, h⟩)))
    · exact Or.inr (Or.inr (by rw [h]))

theorem modeLtB_trans {a b c : Mode} (h1 : modeLtB a b = true)
    (h2 : modeLtB b c = true) : modeLtB a c = true := by
  rw [modeLtB_iff] at *
  rcases h1 with h1 | ⟨he1, hr1⟩ <;> rcases h2 with h2 | ⟨he2, hr2⟩
  · exact Or.inl (resLtB_trans h1 h2)
  · exact Or.inl (he2 ▸ h1)
  · exact Or.inl (he1 ▸ h2)
  · exact Or.inr ⟨he1.trans he2, rateLtB_trans hr1 hr2⟩

theorem modeLtB_irrefl (a : Mode) : modeLtB a a = false := by
  cases hx : modeLtB a a
  · rfl
  · exact absurd (modeLtB_asymm hx) (by simp [hx])

theorem modeDescR_total : ∀ a b : Mode, modeDescR a b ∨ modeDescR b a := by
  intro a b
  unfold modeDescR
  rcases modeLtB_trich a b with h | h | h
  · exact Or.inr (modeLtB_asymm h)
  · exact Or.inl (modeLtB_asymm h)
  · exact Or.inl (h ▸ modeLtB_irrefl a)

theorem modeDescR_trans : ∀ a b c : Mode,
    modeDescR a b → modeDescR b c → modeDescR a c := by
  intro a b c hab hbc
  unfold modeDescR at *
  cases hac : modeLtB a c
  · rfl
  · exfalso
    rcases modeLtB_trich a b with h | h | h
    · simp [h] at hab
    · have := modeLtB_trans h hac
      simp [this] at hbc
    · subst h
      simp [hac] at hbc

instance : IsTotal Mode modeDescR := ⟨modeDescR_total⟩

instance : IsTrans Mode modeDescR := ⟨modeDescR_trans⟩

/-- Python sorted(xs, reverse=True) on a collection of distinct Modes: the
descending insertion sort by the dataclass order. -/
def sortModesDesc (l : List Mode) : List Mode :=
  List.insertionSort modeDescR l

theorem sortModesDesc_perm (l : List Mode) : (sortModesDesc l).Perm l :=
  List.perm_insertionSort modeDescR l

theorem sortModesDesc_sorted (l : List Mode) :
    List.Sorted modeDescR (sortModesDesc l) :=
  List.sorted_insertionSort modeDescR l

/-- xrandr.EDIDInfo: the raw byte buffer (Python bytes, modelled as a list of
byte values).  The source validates the buffer in __post_init__; here
construction and validation are separated: `mkEDIDInfo` below is the
validating constructor. -/
structure EDIDInfo where
  raw : List Nat
deriving DecidableEq, Repr

/-- xrandr.Monitor: the reported mode set (a frozenset in the source,
modelled as a list of distinct modes), the optional preferred mode and the
optional EDID block. -/
structure Monitor where
  reported_modes : List Mode
  preferred_mode : Option Mode
  edid : Option EDIDInfo
deriving DecidableEq, Repr

/-- Monitor.sorted_modes: the preferred mode (if any) first, then the other
reported modes at the preferred resolution sorted descending, then the
remaining reported modes sorted descending.  Translated from the source:
preferred_resolution_modes = [preferred] + sorted(reported - {preferred}
restricted to the preferred resolution, reverse=True); result =
preferred_resolution_modes + sorted(reported - preferred_resolution_modes,
reverse=True). -/
def Monitor.sortedModes (m : Monitor) : List Mode :=
  let preferredResolutionModes : List Mode :=
    match m.preferred_mode with
    | some p =>
        p :: sortModesDesc
          ((m.reported_modes.filter (fun x => !(x == p))).filter
            (fun x => x.resolution == p.resolution))
    | none => []
  preferredResolutionModes ++
    sortModesDesc
      (m.reported_modes.filter (fun x => !(x ∈ preferredResolutionModes)))

/-- Monitor.default_mode: the preferred mode when present, else
sorted_modes[0].  Python raises IndexError when sorted_modes is empty; that
partiality is the Option. -/
def Monitor.defaultMode (m : Monitor) : Option Mode :=
  match m.preferred_mode with
  | some p => some p
  | none => m.sortedModes.head?

/-- xrandr.Configuration: the active mode and position of an output. -/
structure Configuration where
  mode : Mode
  position : Position
deriving DecidableEq, Repr

/-- xrandr.Output. -/
structure Output where
  name : String
  connected : Bool
  monitor : Option Monitor
  configuration : Option Configuration
  primary : Bool
deriving DecidableEq, Repr

/-- xrandr.Screen: the virtual screen aggregate, outputs in report order. -/
structure Screen where
  name : String
  combined_resolution : Resolution
  outputs : List Output
deriving DecidableEq, Repr

/-- Screen.connected_outputs. -/
def Screen.connectedOutputs (s : Screen) : List Output :=
  s.outputs.filter (fun o => o.connected)

/-- Screen.active_outputs: outputs with a configuration (Python truthiness of
the optional Configuration is isSome: a dataclass instance is always
truthy). -/
def Screen.activeOutputs (s : Screen) : List Output :=
  s.outputs.filter (fun o => o.configuration.isSome)

/-- Screen.connected_output_names. -/
def Screen.connectedOutputNames (s : Screen) : List String :=
  s.connectedOutputs.map (fun o => o.name)

/-- Screen.active_output_names. -/
def Screen.activeOutputNames (s : Screen) : List String :=
  s.activeOutputs.map (fun o => o.name)

/-- The error conditions of the engine, named as the specification names
them.  In the source they are AssertionError ("Multiple primary outputs!",
"no output would have been enabled!"), LookupError ("no primary output
because no active outputs"), KeyError (dict lookup of a missing profile
name) and ValueError (list.index of a missing element). -/
inductive Err
  | MultiplePrimary
  | NoActiveOutput
  | NoOutputEnabled
  | ProfileKeyError
  | ValueError
deriving DecidableEq, Repr

/-- Screen.primary_output: the configured outputs flagged primary; more than
one is a MultiplePrimary failure, exactly one is returned, none falls back
to the first active output, and no active output is a NoActiveOutput
failure. -/
def Screen.primaryOutput (s : Screen) : Except Err Output :=
  let primaryOutputs :=
    s.outputs.filter (fun o => o.configuration.isSome && o.primary)
  if 1 < primaryOutputs.length then .error .MultiplePrimary
  else
    match primaryOutputs with
    | o :: _ => .ok o
    | [] =>
        match s.activeOutputs with
        | o :: _ => .ok o
        | [] => .error .NoActiveOutput

/-- The parse/EDID failure conditions, named as the specification names
them.  In the source MalformedEdid is the AssertionError of
EDIDInfo.__post_init__ and of EDIDInfo.descriptor_blocks, BadHex the
ValueError of bytes.fromhex, and the remaining three the AssertionErrors of
XRandr.screen. -/
inductive ParseErr
  | MalformedEdid
  | BadHex
  | MissingScreen
  | MultipleScreens
  | ResolutionWithoutOutput
deriving DecidableEq, Repr

/-- The fixed 8-byte EDID magic header. -/
def edidMagic : List Nat := [0x00, 0xff, 0xff, 0xff, 0xff, 0xff, 0xff, 0x00]

/-- EDIDInfo.__post_init__: construction fails unless the buffer is at least
128 bytes and starts with the magic header. -/
def mkEDIDInfo (raw : List Nat) : Except ParseErr EDIDInfo :=
  if raw.length < 128 ∨ raw.take 8 ≠ edidMagic then .error .MalformedEdid
  else .ok ⟨raw⟩

/-- EDIDInfo.base: the first 128 bytes. -/
def EDIDInfo.base (e : EDIDInfo) : List Nat := e.raw.take 128

/-- The 18-byte slice of the base block at descriptor offset 0x36 + 18*i. -/
def EDIDInfo.descriptorBlock (e : EDIDInfo) (i : Nat) : List Nat :=
  (e.base.drop (0x36 + 18 * i)).take 18

/-- A descriptor slot whose first two bytes are zero but whose third
(reserved) byte is non-zero: EDIDInfo.descriptor_blocks raises on it. -/
def EDIDInfo.badDescriptor (e : EDIDInfo) (i : Nat) : Prop :=
  (e.descriptorBlock i).take 2 = [0, 0] ∧ (e.descriptorBlock i).getD 2 0 ≠ 0

instance (e : EDIDInfo) (i : Nat) : Decidable (e.badDescriptor i) :=
  inferInstanceAs (Decidable (_ ∧ _))

/-- EDIDInfo.descriptor_blocks restricted to the given slot indices: slots
starting with two zero bytes are collected after checking the reserved
byte; other slots (detailed timing descriptors) are skipped. -/
def descriptorBlocksAux (e : EDIDInfo) : List Nat → Except ParseErr (List (List Nat))
  | [] => .ok []
  | i :: rest =>
    let block := e.descriptorBlock i
    if block.take 2 = [0, 0] then
      if block.getD 2 0 ≠ 0 then .error .MalformedEdid
      else (descriptorBlocksAux e rest).map (fun bs => block :: bs)
    else descriptorBlocksAux e rest

/-- EDIDInfo.descriptor_blocks: the four descriptor slots of the base
block. -/
def EDIDInfo.descriptorBlocks (e : EDIDInfo) : Except ParseErr (List (List Nat)) :=
  descriptorBlocksAux e [0, 1, 2, 3]

/-- EDID decoding as the specification describes it: the eager validation of
EDIDInfo.__post_init__ followed by the (lazily cached in the source)
validation of EDIDInfo.descriptor_blocks. -/
def edidDecode (raw : List Nat) : Except ParseErr EDIDInfo := do
  let e ← mkEDIDInfo raw
  let _ ← e.descriptorBlocks
  pure e

theorem descriptorBlocksAux_error_iff (e : EDIDInfo) (idxs : List Nat) :
    descriptorBlocksAux e idxs = .error .MalformedEdid ↔
      ∃ i ∈ idxs, e.badDescriptor i := by
  induction idxs with
  | nil => simp [descriptorBlocksAux]
  | cons i rest ih =>
    simp only [descriptorBlocksAux]
    by_cases h2 : (e.descriptorBlock i).take 2 = [0, 0]
    · by_cases h3 : (e.descriptorBlock i).getD 2 0 ≠ 0
      · simp only [if_pos h2, if_pos h3]
        constructor
        · intro _
          exact ⟨i, List.mem_cons_self i rest, h2, h3⟩
        · intro _
          trivial
      · simp only [if_pos h2, if_neg h3]
        constructor
        · intro h
          rcases hx : descriptorBlocksAux e rest with e' | bs
          · rw [hx] at h
            simp only [Except.map] at h
            cases h
            rcases (ih.mp hx) with ⟨j, hj, hbad⟩
            exact ⟨j, List.mem_cons_of_mem i hj, hbad⟩
          · rw [hx] at h
            simp [Except.map] at h
        · rintro ⟨j, hj, hbad⟩
          rcases List.mem_cons.mp hj with rfl | hj
          · exact absurd hbad.2 h3
          · rw [ih.mpr ⟨j, hj, hbad⟩]
            rfl
    · simp only [if_neg h2, ih]
      constructor
      · rintro ⟨j, hj, hbad⟩
        exact ⟨j, List.mem_cons_of_mem i hj, hbad⟩
      · rintro ⟨j, hj, hbad⟩
        rcases List.mem_cons.mp hj with rfl | hj
        · exact absurd hbad.1 h2
        · exact ⟨j, hj, hbad⟩

/-- Python's \s character class (ASCII range; the tool output parsed here is
ASCII). -/
def pyIsSpace (c : Char) : Bool :=
  c = ' ' || c = '\t' || c = '\n' || c = '\r' || c = '\x0b' || c = '\x0c'

/-- ASCII digit. -/
def isDigitC (c : Char) : Bool := '0' ≤ c && c ≤ '9'

/-- ASCII hex digit (the character class of _HEX_PATTERN). -/
def isHexC (c : Char) : Bool :=
  isDigitC c || ('a' ≤ c && c ≤ 'f') || ('A' ≤ c && c ≤ 'F')

def digitVal (c : Char) : Nat := c.toNat - '0'.toNat

def hexVal (c : Char) : Nat :=
  if isDigitC c then digitVal c
  else if 'a' ≤ c && c ≤ 'f' then c.toNat - 'a'.toNat + 10
  else c.toNat - 'A'.toNat + 10

/-- Python int() of a run of decimal digits. -/
def natOfDigits (ds : List Char) : Nat :=
  ds.foldl (fun acc c => acc * 10 + digitVal c) 0

/-- bytes.fromhex on a string of hex digits: pairs of digits become bytes; an
odd-length input raises ValueError (None here).  The inputs come from
_HEX_PATTERN so they contain hex digits only. -/
def bytesFromHex : List Char → Option (List Nat)
  | [] => some []
  | [_] => none
  | c1 :: c2 :: rest =>
    if isHexC c1 && isHexC c2 then
      (bytesFromHex rest).map (fun bs => (hexVal c1 * 16 + hexVal c2) :: bs)
    else none

/-- Decimal("i.f") as a rational: the value of the integer part plus the
fraction part scaled down. -/
def decOfParts (ipart fpart : List Char) : ℚ :=
  (natOfDigits ipart : ℚ) + (natOfDigits fpart : ℚ) / ((10 : ℚ) ^ fpart.length)

/-- Matches _EDID_PATTERN ("^\s+EDID:\s*$"). -/
def matchEdidLine (cs : List Char) : Bool :=
  let ws := cs.takeWhile pyIsSpace
  let rest := cs.dropWhile pyIsSpace
  !ws.isEmpty && rest.take 5 == "EDID:".data && (rest.drop 5).all pyIsSpace

/-- Matches _HEX_PATTERN ("^\s+(?P<hex>[\da-fA-F]+)\s*$"): the hex group. -/
def matchHexLine (cs : List Char) : Option (List Char) :=
  let ws := cs.takeWhile pyIsSpace
  let rest := cs.dropWhile pyIsSpace
  let hexs := rest.takeWhile isHexC
  let tail := rest.dropWhile isHexC
  if !ws.isEmpty && !hexs.isEmpty && tail.all pyIsSpace then some hexs else none

/-- Matches _SUPPORTED_RESOLUTION_PATTERN ("^\s+(\d+)x(\d+)(?P<remaining>.*)$"):
width, height and the remaining text. -/
def matchResolutionLine (cs : List Char) : Option (Nat × Nat × List Char) :=
  let ws := cs.takeWhile pyIsSpace
  let rest := cs.dropWhile pyIsSpace
  if ws.isEmpty then none
  else
    let d1 := rest.takeWhile isDigitC
    if d1.isEmpty then none
    else
      match rest.dropWhile isDigitC with
      | 'x' :: r1 =>
        let d2 := r1.takeWhile isDigitC
        if d2.isEmpty then none
        else some (natOfDigits d1, natOfDigits d2, r1.dropWhile isDigitC)
      | _ => none

/-- The optional fraction group "(\.\d+)?" of _REFRESH_RATE_PATTERN: the
fraction digits (empty when the group does not participate) and the
remainder. -/
def optFraction (r : List Char) : List Char × List Char :=
  match r with
  | '.' :: t =>
    if (t.takeWhile isDigitC).isEmpty then ([], '.' :: t)
    else (t.takeWhile isDigitC, t.dropWhile isDigitC)
  | _ => ([], r)

/-- An optional single-character group such as "(\*)?" or "(\+)?": whether it
participated and the remainder. -/
def optChar (c : Char) (r : List Char) : Bool × List Char :=
  match r with
  | x :: t => if x = c then (true, t) else (false, r)
  | [] => (false, r)

/-- One match of _REFRESH_RATE_PATTERN
("\s*(?P<rate>\d+(\.\d+)?)(?P<current>\*)?\s*(?P<preferred>\+)?") at the
start of the input: the rate value, the current flag, the preferred flag
and the unconsumed remainder. -/
def tryMatchRR (cs : List Char) : Option ((ℚ × Bool × Bool) × List Char) :=
  let afterWs := cs.dropWhile pyIsSpace
  let d1 := afterWs.takeWhile isDigitC
  if d1.isEmpty then none
  else
    let r1 := afterWs.dropWhile isDigitC
    let fr2 := optFraction r1
    let cr3 := optChar '*' fr2.2
    let r4 := cr3.2.dropWhile pyIsSpace
    let pr5 := optChar '+' r4
    some ((decOfParts d1 fr2.1, cr3.1, pr5.1), pr5.2)

theorem lengthDropWhileLe (p : Char → Bool) (l : List Char) :
    (l.dropWhile p).length ≤ l.length :=
  (List.dropWhile_sublist p).length_le

theorem dropWhile_lt_of_takeWhile_ne {p : Char → Bool} {l : List Char}
    (h : ¬(l.takeWhile p).isEmpty) : (l.dropWhile p).length < l.length := by
  cases l with
  | nil => simp [List.takeWhile] at h
  | cons c t =>
    cases hc : p c
    · simp [List.takeWhile, hc] at h
    · simp only [List.dropWhile, hc, List.length_cons]
      exact Nat.lt_succ_of_le (lengthDropWhileLe p t)

theorem optFraction_le (r : List Char) : (optFraction r).2.length ≤ r.length := by
  unfold optFraction
  split
  · split
    · simp
    · simp only [List.length_cons]
      exact Nat.le_succ_of_le (lengthDropWhileLe isDigitC _)
  · simp

theorem optChar_le (c : Char) (r : List Char) : (optChar c r).2.length ≤ r.length := by
  unfold optChar
  split
  · split <;> simp
  · simp

theorem tryMatchRR_shrinks {cs r : List Char} {tok : ℚ × Bool × Bool}
    (h : tryMatchRR cs = some (tok, r)) : r.length < cs.length := by
  unfold tryMatchRR at h
  by_cases hd : ((cs.dropWhile pyIsSpace).takeWhile isDigitC).isEmpty
  · simp [hd] at h
  · simp only [hd, Bool.false_eq_true, if_false, Option.some.injEq, Prod.mk.injEq] at h
    calc r.length
        ≤ ((optChar '*' (optFraction ((cs.dropWhile pyIsSpace).dropWhile isDigitC)).2).2.dropWhile
            pyIsSpace).length := by
          rw [← h.2]
          exact optChar_le _ _
      _ ≤ (optChar '*' (optFraction ((cs.dropWhile pyIsSpace).dropWhile isDigitC)).2).2.length :=
          lengthDropWhileLe _ _
      _ ≤ (optFraction ((cs.dropWhile pyIsSpace).dropWhile isDigitC)).2.length := optChar_le _ _
      _ ≤ ((cs.dropWhile pyIsSpace).dropWhile isDigitC).length := optFraction_le _
      _ < (cs.dropWhile pyIsSpace).length := dropWhile_lt_of_takeWhile_ne hd
      _ ≤ cs.length := lengthDropWhileLe _ _

/-- re.finditer of _REFRESH_RATE_PATTERN, fueled so that it reduces by
iota rules: the scan tries to match at each position, consuming the match
or advancing one character.  Every step strictly shortens the text
(tryMatchRR_shrinks), so fuel = length + 1 never runs out. -/
def rrTokensF : Nat → List Char → List (ℚ × Bool × Bool)
  | 0, _ => []
  | fuel + 1, cs =>
    match tryMatchRR cs with
    | some (tok, r) => tok :: rrTokensF fuel r
    | none =>
      match cs with
      | [] => []
      | _ :: rest => rrTokensF fuel rest

/-- re.finditer of _REFRESH_RATE_PATTERN over the remaining text of a mode
line. -/
def rrTokens (cs : List Char) : List (ℚ × Bool × Bool) :=
  rrTokensF (cs.length + 1) cs

/-- Does the tail text after a matched group satisfy "([,\s].*)?$": either
nothing follows, or the next character is a comma or whitespace. -/
def commaWsTailOk (cs : List Char) : Bool :=
  match cs with
  | [] => true
  | c :: _ => c = ',' || pyIsSpace c

/-- Does the tail text satisfy "(\s.*)?$": either nothing follows, or the
next character is whitespace. -/
def wsTailOk (cs : List Char) : Bool :=
  match cs with
  | [] => true
  | c :: _ => pyIsSpace c

/-- The tail of _SCREEN_PATTERN at one position: " current (\d+) x
(\d+)([,\s].*)?$". -/
def screenTailMatch (cs : List Char) : Option (Nat × Nat) :=
  if cs.take 9 ≠ " current ".data then none
  else
    let r := cs.drop 9
    let d1 := r.takeWhile isDigitC
    if d1.isEmpty then none
    else
      let r1 := r.dropWhile isDigitC
      if r1.take 3 ≠ " x ".data then none
      else
        let r2 := r1.drop 3
        let d2 := r2.takeWhile isDigitC
        if d2.isEmpty then none
        else if commaWsTailOk (r2.dropWhile isDigitC) then
          some (natOfDigits d1, natOfDigits d2)
        else none

/-- The ".*" before " current" in _SCREEN_PATTERN is greedy, so the match
uses the rightmost position whose tail matches. -/
def findScreenTail : List Char → Option (Nat × Nat)
  | [] => screenTailMatch []
  | c :: rest =>
    match findScreenTail rest with
    | some r => some r
    | none => screenTailMatch (c :: rest)

/-- Matches _SCREEN_PATTERN ("^Screen (?P<name>[^:]+):.* current (?P<width>\d+) x
(?P<height>\d+)([,\s].*)?$"): the screen name and combined resolution. -/
def matchScreenLine (cs : List Char) : Option (String × Nat × Nat) :=
  if cs.take 7 ≠ "Screen ".data then none
  else
    let r := cs.drop 7
    let nm := r.takeWhile (fun c => !(c == ':'))
    if nm.isEmpty then none
    else
      match r.dropWhile (fun c => !(c == ':')) with
      | ':' :: tail => (findScreenTail tail).map (fun wh => (String.mk nm, wh))
      | _ => none

/-- A parsed output header line. -/
structure OutputHeader where
  name : String
  connected : Bool
  primary : Bool
  geometry : Option (Nat × Nat × Nat × Nat)
deriving DecidableEq, Repr

/-- The optional geometry group " (\d+)x(\d+)\+(\d+)\+(\d+)" of
_OUTPUT_PATTERN: width, height, x, y and the remainder. -/
def geoParse (cs : List Char) : Option ((Nat × Nat × Nat × Nat) × List Char) :=
  match cs with
  | ' ' :: r =>
    let d1 := r.takeWhile isDigitC
    if d1.isEmpty then none
    else
      match r.dropWhile isDigitC with
      | 'x' :: r1 =>
        let d2 := r1.takeWhile isDigitC
        if d2.isEmpty then none
        else
          match r1.dropWhile isDigitC with
          | '+' :: r2 =>
            let d3 := r2.takeWhile isDigitC
            if d3.isEmpty then none
            else
              match r2.dropWhile isDigitC with
              | '+' :: r3 =>
                let d4 := r3.takeWhile isDigitC
                if d4.isEmpty then none
                else
                  some ((natOfDigits d1, natOfDigits d2, natOfDigits d3, natOfDigits d4),
                    r3.dropWhile isDigitC)
              | _ => none
          | _ => none
      | _ => none
  | _ => none

/-- The "( geometry)?(\s.*)?$" part of _OUTPUT_PATTERN with the regex's
greedy backtracking: a present geometry group is kept when its own tail
matches, otherwise the group is dropped and "(\s.*)?$" is tried on the whole
remainder. -/
def optGeoThenTail (cs : List Char) : Option (Option (Nat × Nat × Nat × Nat)) :=
  match geoParse cs with
  | some (g, r) =>
    if wsTailOk r then some (some g)
    else if wsTailOk cs then some none
    else none
  | none => if wsTailOk cs then some none else none

/-- The "( (?P<primary>primary))?( geometry)?(\s.*)?$" part of
_OUTPUT_PATTERN, greedy with backtracking. -/
def afterStateMatch (cs : List Char) : Option (Bool × Option (Nat × Nat × Nat × Nat)) :=
  (if cs.take 8 = " primary".data then
      (optGeoThenTail (cs.drop 8)).map (fun g => (true, g))
    else none)
  <|> (optGeoThenTail cs).map (fun g => (false, g))

/-- Matches _OUTPUT_PATTERN: an output header line "name (dis)connected
[primary] [WxH+X+Y] ...". -/
def matchOutputLine (cs : List Char) : Option OutputHeader :=
  let nm := cs.takeWhile (fun c => !pyIsSpace c)
  if nm.isEmpty then none
  else
    match cs.dropWhile (fun c => !pyIsSpace c) with
    | ' ' :: r =>
      if r.take 12 = "disconnected".data then
        (afterStateMatch (r.drop 12)).map
          (fun pg => OutputHeader.mk (String.mk nm) false pg.1 pg.2)
      else if r.take 9 = "connected".data then
        (afterStateMatch (r.drop 9)).map
          (fun pg => OutputHeader.mk (String.mk nm) true pg.1 pg.2)
      else none
    | _ => none

/-- The accumulating "output currently being described" state of
XRandr.screen: the nonlocal variables reset by clear_output. -/
structure PendingOutput where
  name : String
  connected : Bool
  primary : Bool
  resolution : Option Resolution
  refresh_rate : Option ℚ
  position : Option Position
  modes : List Mode
  preferred_mode : Option Mode
  edid_lines : List String
deriving DecidableEq, Repr

/-- clear_output: every pending field reset. -/
def emptyPending : PendingOutput :=
  ⟨"", false, false, none, none, none, [], none, []⟩

/-- The whole scan state of XRandr.screen: screen fields, flushed outputs,
the pending output and the in_section marker ("edid" or ""). -/
structure ParseState where
  screen_name : String
  combined_resolution : Option Resolution
  outputs : List Output
  pending : PendingOutput
  in_edid : Bool
deriving DecidableEq, Repr

def initParseState : ParseState := ⟨"", none, [], emptyPending, false⟩

/-- add_pending_output: flush the accumulated record into a completed Output.
A record that accumulated modes, a preferred mode or EDID bytes gets a
Monitor (the mode list deduplicated, as frozenset does); EDID bytes are
hex-decoded and validated.  A record with both a resolution and a position
gets a Configuration carrying the accumulated refresh rate. -/
def addPendingOutput (st : ParseState) : Except ParseErr ParseState :=
  if st.pending.name = "" then .ok st
  else
    let p := st.pending
    let monitorE : Except ParseErr (Option Monitor) :=
      if !p.modes.isEmpty || p.preferred_mode.isSome || !p.edid_lines.isEmpty then
        if p.edid_lines.isEmpty then
          .ok (some ⟨p.modes.dedup, p.preferred_mode, none⟩)
        else
          match bytesFromHex (String.join p.edid_lines).data with
          | none => .error .BadHex
          | some bs =>
            match mkEDIDInfo bs with
            | .error e => .error e
            | .ok e => .ok (some ⟨p.modes.dedup, p.preferred_mode, some e⟩)
      else .ok none
    match monitorE with
    | .error e => .error e
    | .ok monitor =>
      let configuration : Option Configuration :=
        match p.resolution, p.position with
        | some r, some pos => some ⟨⟨r, p.refresh_rate⟩, pos⟩
        | _, _ => none
      .ok { screen_name := st.screen_name,
            combined_resolution := st.combined_resolution,
            outputs := st.outputs ++
              [⟨p.name, p.connected, monitor, configuration, p.primary⟩],
            pending := emptyPending,
            in_edid := false }

/-- The per-token body of the mode-line loop: append the mode; a "*" suffix
records the current refresh rate, a "+" suffix records the preferred
mode. -/
def applyRateTokens (w h : Nat) (p : PendingOutput)
    (toks : List (ℚ × Bool × Bool)) : PendingOutput :=
  toks.foldl
    (fun p tok =>
      let mode : Mode := ⟨⟨(w : Int), (h : Int)⟩, some tok.1⟩
      let p1 := { p with modes := p.modes ++ [mode] }
      let p2 := if tok.2.1 then { p1 with refresh_rate := some tok.1 } else p1
      if tok.2.2 then { p2 with preferred_mode := some mode } else p2)
    p

/-- One line of the XRandr.screen scan, in the source's priority order: the
EDID section marker, hex continuation lines while inside the EDID section
(a non-hex line leaves the section and falls through), mode-list lines,
the screen header, output headers, and everything else ignored. -/
def stepLine (st : ParseState) (line : String) : Except ParseErr ParseState :=
  let cs := line.data
  if matchEdidLine cs then .ok { st with in_edid := true }
  else
    let hexHandled : Option ParseState :=
      if st.in_edid then
        match matchHexLine cs with
        | some hexs =>
          some { st with pending :=
            { st.pending with
                edid_lines := st.pending.edid_lines ++ [String.mk hexs] } }
        | none => none
      else none
    match hexHandled with
    | some st2 => .ok st2
    | none =>
      let st := if st.in_edid then { st with in_edid := false } else st
      match matchResolutionLine cs with
      | some whr =>
        if st.pending.name = "" then .error .ResolutionWithoutOutput
        else
          let pending2 := applyRateTokens whr.1 whr.2.1 st.pending (rrTokens whr.2.2)
          .ok { st with pending := pending2 }
      | none =>
        match matchScreenLine cs with
        | some nwh =>
          match addPendingOutput st with
          | .error e => .error e
          | .ok st2 =>
            if st2.screen_name ≠ "" then .error .MultipleScreens
            else .ok { st2 with
              screen_name := nwh.1,
              combined_resolution :=
                some ⟨(nwh.2.1 : Int), (nwh.2.2 : Int)⟩ }
        | none =>
          match matchOutputLine cs with
          | some oh =>
            match addPendingOutput st with
            | .error e => .error e
            | .ok st2 =>
              .ok { st2 with pending :=
                { emptyPending with
                    name := oh.name,
                    connected := oh.connected,
                    primary := oh.primary,
                    resolution := oh.geometry.map
                      (fun g => ⟨(g.1 : Int), (g.2.1 : Int)⟩),
                    position := oh.geometry.map
                      (fun g => ⟨(g.2.2.1 : Int), (g.2.2.2 : Int)⟩) } }
          | none => .ok st

/-- XRandr.screen: fold the scan over the report lines, flush the last
pending output, and require the screen header fields. -/
def parseScreen (lines : List String) : Except ParseErr Screen :=
  match lines.foldlM stepLine initParseState with
  | .error e => .error e
  | .ok st =>
    match addPendingOutput st with
    | .error e => .error e
    | .ok st2 =>
      if st2.screen_name = "" then .error .MissingScreen
      else
        match st2.combined_resolution with
        | none => .error .MissingScreen
        | some res => .ok ⟨st2.screen_name, res, st2.outputs⟩

/-- output_profile.DefaultProfile: a rule mapping a connected-output set to
a profile name. -/
structure DefaultProfile where
  connected_output_names : List String
  profile_name : String
deriving DecidableEq, Repr

/-- output_profile.OutputState: the desired configuration for one output
plus the primary-candidate flag. -/
structure OutputState where
  configuration : Configuration
  primary_candidate : Bool
deriving DecidableEq, Repr

/-- output_profile.Profile. -/
structure Profile where
  pactl_sink_option_regexes : List String
  outputs : List (String × OutputState)
deriving DecidableEq, Repr

/-- Profile.primary_output_name: the first output flagged primary_candidate,
else the first output key, else "". -/
def Profile.primaryOutputName (p : Profile) : String :=
  if p.outputs.isEmpty then ""
  else
    match p.outputs.find? (fun x => x.2.primary_candidate) with
    | some x => x.1
    | none =>
      match p.outputs with
      | x :: _ => x.1
      | [] => ""

/-- output_profile.Settings. -/
structure Settings where
  default_profiles : List DefaultProfile
  profiles : List (String × Profile)
deriving DecidableEq, Repr

/-- The JSON shape of the mode object inside a settings document.  The
refresh_rate key may be absent (from_dict raises KeyError on it);
resolution must carry exactly width and height (Resolution(**...)). -/
structure ModeDoc where
  resolution : Resolution
  refresh_rate : Option ℚ
deriving DecidableEq, Repr

/-- The JSON shape of a configuration object: mode and position (the
position object must carry exactly x and y, Position(**...)). -/
structure ConfigurationDoc where
  mode : ModeDoc
  position : Position
deriving DecidableEq, Repr

/-- The JSON shape of an output-state object: configuration is required,
primary_candidate is read with .get(..., False) so the key may be
absent. -/
structure OutputStateDoc where
  configuration : ConfigurationDoc
  primary_candidate : Option Bool
deriving DecidableEq, Repr

/-- The JSON shape of a profile object. -/
structure ProfileDoc where
  pactl_sink_option_regexes : List String
  outputs : List (String × OutputStateDoc)
deriving DecidableEq, Repr

/-- The JSON shape of a settings document.  Both top-level keys are read
with .get(..., default) so either may be absent; a default-profile entry
must carry exactly the two DefaultProfile keys (DefaultProfile(**...)). -/
structure SettingsDoc where
  default_profiles : Option (List DefaultProfile)
  profiles : Option (List (String × ProfileDoc))
deriving DecidableEq, Repr

/-- The failure of Settings.from_dict: the KeyError on a missing
refresh_rate key. -/
inductive DeserErr
  | KeyErrorRefreshRate
deriving DecidableEq, Repr

/-- The outputs comprehension of Settings.from_dict. -/
def fromDictOutputs : List (String × OutputStateDoc) → Except DeserErr (List (String × OutputState))
  | [] => .ok []
  | x :: rest =>
    match x.2.configuration.mode.refresh_rate with
    | none => .error .KeyErrorRefreshRate
    | some q =>
      match fromDictOutputs rest with
      | .error e => .error e
      | .ok tl =>
        .ok ((x.1,
          ⟨⟨⟨x.2.configuration.mode.resolution, some q⟩, x.2.configuration.position⟩,
            x.2.primary_candidate.getD false⟩) :: tl)

/-- The profiles comprehension of Settings.from_dict. -/
def fromDictProfiles : List (String × ProfileDoc) → Except DeserErr (List (String × Profile))
  | [] => .ok []
  | x :: rest =>
    match fromDictOutputs x.2.outputs with
    | .error e => .error e
    | .ok outs =>
      match fromDictProfiles rest with
      | .error e => .error e
      | .ok tl => .ok ((x.1, ⟨x.2.pactl_sink_option_regexes, outs⟩) :: tl)

/-- Settings.from_dict. -/
def Settings.fromDict (d : SettingsDoc) : Except DeserErr Settings :=
  match fromDictProfiles (d.profiles.getD []) with
  | .error e => .error e
  | .ok ps => .ok ⟨d.default_profiles.getD [], ps⟩

/-- The outputs part of Settings.to_dict (dataclasses.asdict): every field
spelled out.  A refresh rate of None would become an explicit JSON null in
the source; Settings produced by from_dict always carry a rate, so the
none branch stays unreachable in the round-trip theorems. -/
def toDictOutputs (l : List (String × OutputState)) : List (String × OutputStateDoc) :=
  l.map (fun x =>
    (x.1,
      ⟨⟨⟨x.2.configuration.mode.resolution, x.2.configuration.mode.refresh_rate⟩,
        x.2.configuration.position⟩, some x.2.primary_candidate⟩))

/-- The profiles part of Settings.to_dict. -/
def toDictProfiles (l : List (String × Profile)) : List (String × ProfileDoc) :=
  l.map (fun x => (x.1, ⟨x.2.pactl_sink_option_regexes, toDictOutputs x.2.outputs⟩))

/-- Settings.to_dict (dataclasses.asdict): both top-level keys always
present. -/
def Settings.toDict (s : Settings) : SettingsDoc :=
  ⟨some s.default_profiles, some (toDictProfiles s.profiles)⟩

/-- pactl.Sink. -/
structure Sink where
  name : String
  monitor_source_name : String
  alsa_card_number : Int
deriving DecidableEq, Repr

/-- A regular-expression atom of the modelled subset: a literal character
or ".". -/
inductive RAtom
  | lit (c : Char)
  | dot
deriving DecidableEq, Repr

/-- A piece of a modelled regular expression: an atom or a starred atom. -/
inductive RPiece
  | once (a : RAtom)
  | star (a : RAtom)
deriving DecidableEq, Repr

/-- Does the atom match one character ("." does not match a newline in
Python, and sink names contain none). -/
def RAtom.matchesC : RAtom → Char → Bool
  | .lit d, c => c = d
  | .dot, _ => true

/-- The regex metacharacters outside the modelled subset. -/
def isMetaC (c : Char) : Bool :=
  c = '(' || c = ')' || c = '[' || c = ']' || c = '\x7b' || c = '\x7d' ||
    c = '+' || c = '?' || c = '|' || c = '^' || c = '$'

/-- Compile a pattern string of the modelled subset (literals, escaped
non-alphanumeric literals, ".", and "*" on any of those); anything else is
rejected. -/
def parseRegexAux : List Char → Option (List RPiece)
  | [] => some []
  | '\\' :: [] => none
  | '\\' :: d :: '*' :: rest =>
    if d.isAlphanum then none
    else (parseRegexAux rest).map (fun ps => RPiece.star (RAtom.lit d) :: ps)
  | '\\' :: d :: rest =>
    if d.isAlphanum then none
    else (parseRegexAux rest).map (fun ps => RPiece.once (RAtom.lit d) :: ps)
  | '.' :: '*' :: rest => (parseRegexAux rest).map (fun ps => RPiece.star RAtom.dot :: ps)
  | '.' :: rest => (parseRegexAux rest).map (fun ps => RPiece.once RAtom.dot :: ps)
  | '*' :: _ => none
  | c :: '*' :: rest =>
    if isMetaC c then none
    else (parseRegexAux rest).map (fun ps => RPiece.star (RAtom.lit c) :: ps)
  | c :: rest =>
    if isMetaC c then none
    else (parseRegexAux rest).map (fun ps => RPiece.once (RAtom.lit c) :: ps)

def parseRegex (s : String) : Option (List RPiece) := parseRegexAux s.data

/-- Backtracking match of a compiled pattern against a prefix of the text
(the semantics of re.match: the pattern may stop anywhere), fueled so that
it reduces by iota rules.  Every recursive call decreases
pattern-length + text-length, so fuel = that sum + 1 never runs out. -/
def rmatchF : Nat → List RPiece → List Char → Bool
  | 0, _, _ => false
  | fuel + 1, ps, cs =>
    match ps, cs with
    | [], _ => true
    | .once _ :: _, [] => false
    | .once a :: ps2, c :: cs2 => a.matchesC c && rmatchF fuel ps2 cs2
    | .star _ :: ps2, [] => rmatchF fuel ps2 []
    | .star a :: ps2, c :: cs2 =>
      rmatchF fuel ps2 (c :: cs2) ||
        (a.matchesC c && rmatchF fuel (.star a :: ps2) cs2)

/-- Backtracking prefix match of a compiled pattern. -/
def rmatch (ps : List RPiece) (cs : List Char) : Bool :=
  rmatchF (ps.length + cs.length + 1) ps cs

/-- re.match(pattern, name) used on sink names: does the compiled pattern
match at the start of the name.  Patterns outside the modelled subset are
treated as matching nothing; the theorems only exercise patterns inside
the subset. -/
def reMatchStr (pattern name : String) : Bool :=
  match parseRegex pattern with
  | some r => rmatch r name.data
  | none => false

/-- Follows the specification's own wording for sink patterns ("literal
substrings preserved, * treated as wildcard-match-any"): a glob-style full
match, stated only to compare with the source's regular-expression
matching. -/
def globMatchLF : Nat → List Char → List Char → Bool
  | 0, _, _ => false
  | fuel + 1, ps, cs =>
    match ps, cs with
    | [], [] => true
    | [], _ :: _ => false
    | '*' :: ps2, [] => globMatchLF fuel ps2 []
    | '*' :: ps2, c :: cs2 =>
      globMatchLF fuel ps2 (c :: cs2) || globMatchLF fuel ('*' :: ps2) cs2
    | _ :: _, [] => false
    | p :: ps2, c :: cs2 => p = c && globMatchLF fuel ps2 cs2

/-- Glob full match (fuel = pattern-length + text-length + 1 always
suffices, every call decreasing that sum). -/
def globMatchL (ps cs : List Char) : Bool :=
  globMatchLF (ps.length + cs.length + 1) ps cs

/-- The glob semantics of the specification's sink-selection sentence on
strings. -/
def specGlobMatch (pattern name : String) : Bool :=
  globMatchL pattern.data name.data

/-- Python max(names, key=len, default=None) followed by the source's
falsy-to-"" coercion ("if not match: return ..."): the first name of
maximal length, or "" for the empty list. -/
def maxByLen : List String → String
  | [] => ""
  | x :: xs => xs.foldl (fun acc n => if acc.length < n.length then n else acc) x

/-- Python set(a) == set(b) on string lists. -/
def eqAsSets (a b : List String) : Bool := a.all b.contains && b.all a.contains

/-- Python set(a) <= set(b) on string lists. -/
def subsetOf (a b : List String) : Bool := a.all b.contains

/-- ProfileSelector._get_current_profile: among the profiles whose output
key set equals the active-output-name set, the longest name (first wins on
equal length); "" when none. -/
def getCurrentProfile (settings : Settings) (screen : Screen) : String :=
  maxByLen ((settings.profiles.filter
    (fun p => eqAsSets (p.2.outputs.map Prod.fst) screen.activeOutputNames)).map
    Prod.fst)

/-- ProfileSelector._get_default_profile: among the rules whose
connected-output set is a subset of the connected output names, the
longest profile name; "" when none. -/
def getDefaultProfile (settings : Settings) (screen : Screen) : String :=
  maxByLen ((settings.default_profiles.filter
    (fun dp => subsetOf dp.connected_output_names screen.connectedOutputNames)).map
    (fun dp => dp.profile_name))

/-- ProfileSelector._get_candidate_pactl_sinks.  The source iterates a
Python set of the remaining sinks, whose iteration order is unspecified;
it is modelled as the order of the sink list.  No claim below depends on
this function. -/
def getCandidateSinks (settings : Settings) (currentProfile : String)
    (sinks : List Sink) : List Sink :=
  if currentProfile = "" then sinks
  else
    match settings.profiles.lookup currentProfile with
    | none => sinks
    | some profile =>
      if profile.pactl_sink_option_regexes.isEmpty then sinks
      else
        let fr := profile.pactl_sink_option_regexes.foldl
          (fun (acc : List Sink × List Sink) rx =>
            match acc.2.find? (fun s => reMatchStr rx s.name) with
            | some s => (acc.1 ++ [s], acc.2.erase s)
            | none => acc)
          ([], sinks)
        if fr.1.isEmpty then sinks else fr.1

/-- An external command issued by the engine (every CLITool.invoke of
xprop, xrandr, pactl or a hook script). -/
inductive Cmd
  | xpropQuery
  | xrandrInvoke (args : List String)
  | xrandrSetPrimary (name : String)
  | pactlListSinks
  | pactlGetDefaultSink
  | pactlSetDefault (name : String)
  | runScript (script : String) (args : List String)
deriving DecidableEq, Repr

/-- The external world of one engine invocation: the parsed screen, the
available sinks, the default sink name, the successive root-window ids
xprop reports, and whether the two hook scripts exist.  External commands
are modelled as succeeding (an invocation failure aborts the run in the
source; no claim concerns that path). -/
structure Env where
  screen : Screen
  sinks : List Sink
  defaultSinkName : String
  xpropIds : List String
  profileHookExists : Bool
  primaryHookExists : Bool
deriving Repr

/-- The state ProfileSelector holds after update_state. -/
structure ProfileSelector where
  settings : Settings
  screen : Screen
  currentProfile : String
  defaultProfile : String
  candidateSinks : List Sink
deriving Repr

/-- ProfileSelector.__post_init__ / update_state. -/
def mkProfileSelector (settings : Settings) (env : Env) : ProfileSelector :=
  let current := getCurrentProfile settings env.screen
  ⟨settings, env.screen, current, getDefaultProfile settings env.screen,
    getCandidateSinks settings current env.sinks⟩

/-- ProfileSelector.next_valid_profile: from just after the given name (or
the current profile when ""), walk the declared profile order wrapping and
excluding the start, returning the first profile whose output keys are a
subset of the connected output names; "" when none qualifies.  list.index
raises ValueError when the start name is not a profile key. -/
def nextValidProfile (sel : ProfileSelector) (name0 : String) : Except Err String :=
  let name := if name0 = "" then sel.currentProfile else name0
  let profileNames := sel.settings.profiles.map Prod.fst
  let rotatedE : Except Err (List String) :=
    if name = "" then .ok profileNames
    else
      match profileNames.findIdx? (fun n => n == name) with
      | some i => .ok (profileNames.drop (i + 1) ++ profileNames.take i)
      | none => .error .ValueError
  match rotatedE with
  | .error e => .error e
  | .ok plist =>
    match plist.find? (fun nm =>
      match sel.settings.profiles.lookup nm with
      | some p => subsetOf (p.outputs.map Prod.fst) sel.screen.connectedOutputNames
      | none => false) with
    | some nm => .ok nm
    | none => .ok ""

/-- ProfileSelector.cycle_pactl_sink: query the default sink name, rotate
the candidate sink names past it (a ValueError from list.index leaves the
list unrotated), and set the first rotated name when one exists. -/
def cyclePactlSink (sel : ProfileSelector) (env : Env) : String × List Cmd :=
  let sinkNames := sel.candidateSinks.map (fun s => s.name)
  let rotated :=
    match sinkNames.findIdx? (fun n => n == env.defaultSinkName) with
    | some i => sinkNames.drop (i + 1) ++ sinkNames.take i
    | none => sinkNames
  match rotated with
  | n :: _ => (n, [Cmd.pactlGetDefaultSink, Cmd.pactlSetDefault n])
  | [] => ("", [Cmd.pactlGetDefaultSink])

/-- ProfileSelector.cycle_primary_output: candidates are the current
profile's primary-candidate outputs, else the active outputs; the output
after the resolved primary (wrapping) becomes primary and the
primary-change hook fires when applicable. -/
def cyclePrimaryOutput (sel : ProfileSelector) (env : Env) :
    Except Err (String × List Cmd) :=
  let fromProfile : List String :=
    if sel.currentProfile = "" then []
    else
      match sel.settings.profiles.lookup sel.currentProfile with
      | some profile =>
        (profile.outputs.filter (fun x => x.2.primary_candidate)).map Prod.fst
      | none => []
  let candidates :=
    if fromProfile.isEmpty then sel.screen.activeOutputNames else fromProfile
  match sel.screen.primaryOutput with
  | .error e => .error e
  | .ok po =>
    match candidates.findIdx? (fun n => n == po.name) with
    | none => .error .ValueError
    | some i =>
      let nxt := candidates.getD ((i + 1) % candidates.length) ""
      let hook :=
        if po.name ≠ nxt && env.primaryHookExists then
          [Cmd.runScript "on-primary-output-change" [nxt]]
        else []
      .ok (nxt, [Cmd.xrandrSetPrimary nxt] ++ hook)

/-- The sink-selection loop of apply_profile: per pattern the available
sinks are queried; the first sink whose name the pattern re.match-es
becomes the default sink and the loop stops; a pattern with no match is
logged and the next one tried; the loop falls through silently when
nothing ever matches. -/
def sinkLoop (patterns : List String) (sinks : List Sink) : List Cmd :=
  match patterns with
  | [] => []
  | p :: ps =>
    match sinks.filter (fun s => reMatchStr p s.name) with
    | m :: _ => [Cmd.pactlListSinks, Cmd.pactlSetDefault m.name]
    | [] => Cmd.pactlListSinks :: sinkLoop ps sinks

/-- str(Decimal) for the --rate argument: faithful for integral rates (the
only ones the theorems build; a Decimal also remembers its scale, which ℚ
does not). -/
def rateStr (q : ℚ) : String :=
  if q.den = 1 then toString q.num else toString q

/-- The settle-poll loop of apply_profile: poll the root window id every
100 ms while the budget lasts (the 5000 ms budget at 100 ms steps is 50
iterations), stopping early when the id differs from the pre-change value
(a timeout is logged and execution proceeds). -/
def pollLoop (env : Env) (oldId : String) (idx : Nat) : Nat → List Cmd
  | 0 => []
  | n + 1 =>
    if env.xpropIds.getD idx "" ≠ oldId then [Cmd.xpropQuery]
    else Cmd.xpropQuery :: pollLoop env oldId (idx + 1) n

/-- The per-connected-output body of the apply_profile loop: a connected
output the profile configures contributes its mode/rate/position (and
--primary when it is the profile's primary candidate) and marks
any_output; a connected output the profile does not mention is turned
off.  A zero Decimal rate is falsy in Python, so it adds no --rate. -/
def xrandrCliStep (profile : Profile) (newPrimaryOutputName : String)
    (acc : List String × Bool) (outName : String) : List String × Bool :=
  match profile.outputs.lookup outName with
  | some st =>
    (acc.1 ++
      ["--output", outName, "--mode", st.configuration.mode.resolution.str] ++
      (match st.configuration.mode.refresh_rate with
       | some r => if r ≠ 0 then ["--rate", rateStr r] else []
       | none => []) ++
      ["--pos", st.configuration.position.toCliStr] ++
      (if outName = newPrimaryOutputName then ["--primary"] else []),
     true)
  | none => (acc.1 ++ ["--output", outName, "--off"], acc.2)

/-- ProfileSelector.apply_profile: the outcome and the external commands
issued, in order.  The method writes none of the selector's fields, so the
selector state is untouched by construction. -/
def applyProfile (sel : ProfileSelector) (env : Env) (name : String) :
    Except Err Unit × List Cmd :=
  if sel.currentProfile = name then (.ok (), [])
  else
    match sel.settings.profiles.lookup name with
    | none => (.error .ProfileKeyError, [])
    | some profile =>
      match sel.screen.primaryOutput with
      | .error e => (.error e, [])
      | .ok po =>
        let primaryOutputName := po.name
        let newPrimaryOutputName := profile.primaryOutputName
        let cliAny := sel.screen.connectedOutputNames.foldl
          (xrandrCliStep profile newPrimaryOutputName) ([], false)
        if !cliAny.2 then (.error .NoOutputEnabled, [])
        else
          let oldId := env.xpropIds.getD 0 ""
          let sinkCmds := sinkLoop profile.pactl_sink_option_regexes env.sinks
          let hookCmds :=
            if env.profileHookExists then
              pollLoop env oldId 1 50 ++
                [Cmd.runScript "on-output-profile-change" [name]]
            else []
          let primaryHookCmds :=
            if primaryOutputName ≠ newPrimaryOutputName && env.primaryHookExists then
              [Cmd.runScript "on-primary-output-change" [newPrimaryOutputName]]
            else []
          (.ok (), [Cmd.xpropQuery, Cmd.xrandrInvoke cliAny.1] ++ sinkCmds ++
            hookCmds ++ primaryHookCmds)

/-- The mutually exclusive command-line operations of output_profile.main. -/
inductive CliOp
  | state
  | listProfiles
  | defaultProfile
  | cycleProfile
  | cyclePrimary
  | cyclePactlSink
  | setProfile (name : String)
  | getCurrent
  | primaryResolution
deriving DecidableEq, Repr

/-- output_profile.main after argument parsing: the dispatch over the
operations, giving the exit code (uncaught exceptions as errors) and the
engine commands issued.  Mirrors the source branch for branch: the
--default-profile and --profile apply logic sits inside "elif
args.cycle_profile", so those two operations reach no branch and fall
through to the final "return 0". -/
def mainDispatch (op : CliOp) (settings : Settings) (env : Env) :
    Except Err Int × List Cmd :=
  match op with
  | .state => (.ok 0, [])
  | .primaryResolution =>
    (match env.screen.primaryOutput with
     | .error e => (.error e, [])
     | .ok _ => (.ok 0, []))
  | op =>
    let sel := mkProfileSelector settings env
    match op with
    | .listProfiles => (.ok 0, [])
    | .getCurrent => (.ok 0, [])
    | .cyclePrimary =>
      (match cyclePrimaryOutput sel env with
       | .error e => (.error e, [])
       | .ok r => (.ok 0, r.2))
    | .cycleProfile =>
      (match nextValidProfile sel "" with
       | .error e => (.error e, [])
       | .ok nxt =>
         if nxt ≠ "" then
           match applyProfile sel env nxt with
           | (.ok _, cmds) => (.ok 0, cmds)
           | (.error e, cmds) => (.error e, cmds)
         else (.ok 1, []))
    | .cyclePactlSink => (.ok 0, (cyclePactlSink sel env).2)
    | .defaultProfile => (.ok 0, [])
    | .setProfile _ => (.ok 0, [])
    | .state => (.ok 0, [])
    | .primaryResolution => (.ok 0, [])

theorem foldlMax_mem (xs : List String) (acc : String) :
    xs.foldl (fun a n => if a.length < n.length then n else a) acc = acc ∨
      xs.foldl (fun a n => if a.length < n.length then n else a) acc ∈ xs := by
  induction xs generalizing acc with
  | nil => exact Or.inl rfl
  | cons y ys ih =>
    simp only [List.foldl_cons]
    by_cases h : acc.length < y.length
    · simp only [if_pos h]
      rcases ih y with h2 | h2
      · refine Or.inr ?_
        rw [h2]
        exact List.mem_cons_self y ys
      · exact Or.inr (List.mem_cons_of_mem y h2)
    · simp only [if_neg h]
      rcases ih acc with h2 | h2
      · exact Or.inl h2
      · exact Or.inr (List.mem_cons_of_mem y h2)

theorem foldlMax_le_acc (xs : List String) (acc : String) :
    acc.length ≤
      (xs.foldl (fun a n => if a.length < n.length then n else a) acc).length := by
  induction xs generalizing acc with
  | nil => simp
  | cons y ys ih =>
    simp only [List.foldl_cons]
    by_cases h : acc.length < y.length
    · simp only [if_pos h]
      exact le_trans (le_of_lt h) (ih y)
    · simp only [if_neg h]
      exact ih acc

theorem foldlMax_le_mem (xs : List String) (acc n : String) (hn : n ∈ xs) :
    n.length ≤
      (xs.foldl (fun a m => if a.length < m.length then m else a) acc).length := by
  induction xs generalizing acc with
  | nil => cases hn
  | cons y ys ih =>
    simp only [List.foldl_cons]
    rcases List.mem_cons.mp hn with rfl | hn
    · by_cases h : acc.length < n.length
      · simp only [if_pos h]
        exact foldlMax_le_acc ys n
      · simp only [if_neg h]
        exact le_trans (le_of_not_lt h) (foldlMax_le_acc ys acc)
    · by_cases h : acc.length < y.length
      · simp only [if_pos h]
        exact ih y hn
      · simp only [if_neg h]
        exact ih acc hn

theorem maxByLen_mem {xs : List String} (h : xs ≠ []) : maxByLen xs ∈ xs := by
  match xs with
  | [] => exact absurd rfl h
  | x :: rest =>
    show rest.foldl (fun acc n => if acc.length < n.length then n else acc) x ∈ x :: rest
    rcases foldlMax_mem rest x with h2 | h2
    · rw [h2]
      exact List.mem_cons_self x rest
    · exact List.mem_cons_of_mem x h2

theorem maxByLen_ge {xs : List String} {n : String} (hn : n ∈ xs) :
    n.length ≤ (maxByLen xs).length := by
  match xs with
  | [] => cases hn
  | x :: rest =>
    show n.length ≤ (rest.foldl (fun acc n => if acc.length < n.length then n else acc) x).length
    rcases List.mem_cons.mp hn with rfl | hn
    · exact foldlMax_le_acc rest n
    · exact foldlMax_le_mem rest x n hn

/-- The shared example configuration used by the concrete instances. -/
def cfgEx : Configuration := ⟨⟨⟨1920, 1080⟩, some 60⟩, ⟨0, 0⟩⟩

/-- An output state with the shared example configuration. -/
def stEx : OutputState := ⟨cfgEx, false⟩

/-- The C1 example settings: profile "dual" over HDMI1 and eDP1, profile
"laptop" over eDP1. -/
def exSettingsC1 : Settings :=
  ⟨[], [("dual", ⟨[], [("HDMI1", stEx), ("eDP1", stEx)]⟩),
        ("laptop", ⟨[], [("eDP1", stEx)]⟩)]⟩

/-- The C1 example screen: exactly eDP1 active. -/
def exScreenC1 : Screen :=
  ⟨"0", ⟨1920, 1080⟩, [⟨"eDP1", true, none, some cfgEx, false⟩]⟩

/-- C1: current-profile resolution returns a profile whose output key set
equals the active-output-name set, of greatest name length when several
qualify, and "" when none qualifies; on the dual/laptop example with eDP1
active it returns "laptop". -/
theorem current_profile_resolution :
    (∀ (settings : Settings) (screen : Screen),
      ((settings.profiles.filter
          (fun p => eqAsSets (p.2.outputs.map Prod.fst) screen.activeOutputNames)).map
          Prod.fst ≠ [] →
        getCurrentProfile settings screen ∈
          (settings.profiles.filter
            (fun p => eqAsSets (p.2.outputs.map Prod.fst) screen.activeOutputNames)).map
            Prod.fst ∧
        ∀ n ∈ (settings.profiles.filter
            (fun p => eqAsSets (p.2.outputs.map Prod.fst) screen.activeOutputNames)).map
            Prod.fst,
          n.length ≤ (getCurrentProfile settings screen).length) ∧
      ((settings.profiles.filter
          (fun p => eqAsSets (p.2.outputs.map Prod.fst) screen.activeOutputNames)).map
          Prod.fst = [] →
        getCurrentProfile settings screen = "")) ∧
    getCurrentProfile exSettingsC1 exScreenC1 = "laptop" := by
  refine ⟨fun settings screen => ⟨fun hne => ⟨maxByLen_mem hne, fun n hn => maxByLen_ge hn⟩,
    fun hnil => ?_⟩, by decide⟩
  unfold getCurrentProfile
  rw [hnil]
  rfl

/-- Witness for C1 at the concrete example: "laptop" is itself a qualifying
profile name. -/
theorem current_profile_resolution_witness :
    getCurrentProfile exSettingsC1 exScreenC1 ∈
      (exSettingsC1.profiles.filter
        (fun p => eqAsSets (p.2.outputs.map Prod.fst) exScreenC1.activeOutputNames)).map
        Prod.fst :=
  ((current_profile_resolution.1 exSettingsC1 exScreenC1).1 (by decide)).1

/-- C4: primary_output fails with MultiplePrimary when several configured
outputs are flagged primary, returns the single one when exactly one is,
falls back to the first configured output in report order when none is, and
fails with NoActiveOutput when no output is configured. -/
theorem primary_output_spec :
    ∀ s : Screen,
      (1 < (s.outputs.filter (fun o => o.configuration.isSome && o.primary)).length →
        s.primaryOutput = .error .MultiplePrimary) ∧
      (∀ o, s.outputs.filter (fun o => o.configuration.isSome && o.primary) = [o] →
        s.primaryOutput = .ok o) ∧
      (s.outputs.filter (fun o => o.configuration.isSome && o.primary) = [] →
        ∀ o rest, s.activeOutputs = o :: rest → s.primaryOutput = .ok o) ∧
      (s.activeOutputs = [] → s.primaryOutput = .error .NoActiveOutput) := by
  intro s
  refine ⟨fun h => ?_, fun o h => ?_, fun h o rest ha => ?_, fun ha => ?_⟩
  · unfold Screen.primaryOutput
    rw [if_pos h]
  · unfold Screen.primaryOutput
    rw [h]
    rfl
  · unfold Screen.primaryOutput
    rw [h, ha]
    rfl
  · have hp : s.outputs.filter (fun o => o.configuration.isSome && o.primary) = [] := by
      rw [List.filter_eq_nil_iff]
      intro a hma
      intro hcontra
      have : a ∈ s.activeOutputs := by
        unfold Screen.activeOutputs
        rw [List.mem_filter]
        exact ⟨hma, by
          rcases Bool.and_eq_true_iff.mp hcontra with ⟨h1, _⟩
          exact h1⟩
      rw [ha] at this
      cases this
    unfold Screen.primaryOutput
    rw [hp, ha]
    rfl

/-- The C4 witness screen: two configured outputs both flagged primary. -/
def twoPrimScreenC4 : Screen :=
  ⟨"0", ⟨1920, 1080⟩,
    [⟨"eDP1", true, none, some cfgEx, true⟩, ⟨"HDMI1", true, none, some cfgEx, true⟩]⟩

/-- Witness for C4: the two-primary screen fails with MultiplePrimary. -/
theorem primary_output_spec_witness :
    twoPrimScreenC4.primaryOutput = .error .MultiplePrimary :=
  (primary_output_spec twoPrimScreenC4).1 (by decide)

/-- C8: applying the name that equals the resolved current profile is a
no-op: success, no external commands (and the selector state is a value
the method never writes). -/
theorem apply_profile_current_noop :
    ∀ (sel : ProfileSelector) (env : Env),
      applyProfile sel env sel.currentProfile = (.ok (), []) := by
  intro sel env
  unfold applyProfile
  rw [if_pos rfl]

/-- C7: the --default-profile operation is dead code: for every settings and
environment it issues no engine command and exits 0, never applying the
default profile and never exiting 1 (its apply logic is nested under "elif
args.cycle_profile" in main). -/
theorem main_default_profile_dead :
    ∀ (settings : Settings) (env : Env),
      mainDispatch CliOp.defaultProfile settings env = (.ok 0, []) := by
  intro settings env
  rfl

theorem xrandrCliStep_fold_off (profile : Profile) (npn : String)
    (names : List String) (acc : List String × Bool)
    (h : ∀ o ∈ names, profile.outputs.lookup o = none) :
    (names.foldl (xrandrCliStep profile npn) acc).2 = acc.2 := by
  induction names generalizing acc with
  | nil => rfl
  | cons o rest ih =>
    simp only [List.foldl_cons]
    have ho := h o (List.mem_cons_self o rest)
    have hrest : ∀ x ∈ rest, profile.outputs.lookup x = none :=
      fun x hx => h x (List.mem_cons_of_mem o hx)
    rw [ih _ hrest]
    unfold xrandrCliStep
    rw [ho]

/-- C2 (amended): when the requested name differs from the current profile,
names an existing profile, and that profile configures none of the
connected outputs, apply_profile issues zero external commands and fails:
with NoOutputEnabled when the screen's primary output resolves, and with
the primary-output error itself when it does not (the source computes
screen.primary_output before the any-output check). -/
theorem apply_profile_disjoint_fails :
    ∀ (sel : ProfileSelector) (env : Env) (name : String) (profile : Profile),
      sel.currentProfile ≠ name →
      sel.settings.profiles.lookup name = some profile →
      (∀ o ∈ sel.screen.connectedOutputNames, profile.outputs.lookup o = none) →
      (applyProfile sel env name).2 = [] ∧
      (∀ po, sel.screen.primaryOutput = .ok po →
        applyProfile sel env name = (.error .NoOutputEnabled, [])) ∧
      (∀ e, sel.screen.primaryOutput = .error e →
        applyProfile sel env name = (.error e, [])) := by
  intro sel env name profile hne hlook hdisj
  have hfold : (sel.screen.connectedOutputNames.foldl
      (xrandrCliStep profile profile.primaryOutputName) ([], false)).2 = false :=
    xrandrCliStep_fold_off profile _ _ _ hdisj
  have happly : ∀ po, sel.screen.primaryOutput = .ok po →
      applyProfile sel env name = (.error .NoOutputEnabled, []) := by
    intro po hpo
    unfold applyProfile
    rw [if_neg hne, hlook, hpo]
    simp only [hfold]
    rfl
  refine ⟨?_, happly, ?_⟩
  · cases hpo : sel.screen.primaryOutput with
    | error e =>
      unfold applyProfile
      rw [if_neg hne, hlook, hpo]
    | ok po => rw [happly po hpo]
  · intro e hpo
    unfold applyProfile
    rw [if_neg hne, hlook, hpo]

/-- The C2 counterexample screen: one connected output with no
configuration, so nothing is active. -/
def cexScreenC2 : Screen := ⟨"0", ⟨1920, 1080⟩, [⟨"HDMI1", true, none, none, false⟩]⟩

/-- The C2/C2-witness settings: a single profile "p" configuring only
eDP1. -/
def cexSettingsC2 : Settings := ⟨[], [("p", ⟨[], [("eDP1", stEx)]⟩)]⟩

/-- An environment with no sinks and no hooks around the C2 counterexample
screen. -/
def quietEnv : Env := ⟨cexScreenC2, [], "", [], false, false⟩

/-- The C2 counterexample selector state, built by the selector's own
update_state (the current profile resolves to ""). -/
def cexSelC2 : ProfileSelector := mkProfileSelector cexSettingsC2 quietEnv

/-- Counterexample to C2 as stated: profile "p" differs from the current
profile and configures none of the connected outputs, yet apply_profile
fails with NoActiveOutput (from the primary-output computation), not
NoOutputEnabled. -/
theorem apply_profile_noactive_cex :
    applyProfile cexSelC2 quietEnv "p" = (.error .NoActiveOutput, []) ∧
    cexSelC2.currentProfile ≠ "p" ∧
    cexSelC2.settings.profiles.lookup "p" =
      some ⟨[], [("eDP1", stEx)]⟩ ∧
    cexSelC2.screen.connectedOutputNames.all
      (fun o => ((Profile.mk [] [("eDP1", stEx)]).outputs.lookup o).isNone) = true ∧
    Err.NoActiveOutput ≠ Err.NoOutputEnabled := by
  refine ⟨rfl, by decide, rfl, by decide, by decide⟩

/-- The C2 witness screen: one connected unconfigured output plus one
disconnected active output, so the primary output resolves while the
profile covers no connected output. -/
def amScreenC2 : Screen :=
  ⟨"0", ⟨1920, 1080⟩,
    [⟨"HDMI1", true, none, none, false⟩, ⟨"DP1", false, none, some cfgEx, false⟩]⟩

/-- The environment around the C2 witness screen. -/
def amEnvC2 : Env := ⟨amScreenC2, [], "", [], false, false⟩

/-- The C2 witness selector state, built by the selector's own
update_state. -/
def amSelC2 : ProfileSelector := mkProfileSelector cexSettingsC2 amEnvC2

/-- Witness for the amended C2: on the witness state apply_profile fails
with NoOutputEnabled and issues zero commands. -/
theorem apply_profile_disjoint_fails_witness :
    applyProfile amSelC2 amEnvC2 "p" = (.error .NoOutputEnabled, []) :=
  (apply_profile_disjoint_fails amSelC2 amEnvC2 "p" ⟨[], [("eDP1", stEx)]⟩
    (by decide) rfl (by decide)).2.1
    ⟨"DP1", false, none, some cfgEx, false⟩ rfl

/-- C6 (amended): the sink-selection loop iterates the pattern list in
order, querying the sinks once per tried pattern; the first sink (in query
order) whose name the pattern matches as a regular expression anchored at
the start of the name becomes the default sink and the loop stops; when no
pattern matches any sink the loop issues no set-default command and raises
nothing. -/
theorem sink_selection_spec :
    (∀ (patterns : List String) (sinks : List Sink),
      (∀ p ∈ patterns, ∀ s ∈ sinks, reMatchStr p s.name = false) →
      sinkLoop patterns sinks = patterns.map (fun _ => Cmd.pactlListSinks)) ∧
    (∀ (qs rest : List String) (p : String) (sinks : List Sink) (m : Sink)
        (ms : List Sink),
      (∀ q ∈ qs, ∀ s ∈ sinks, reMatchStr q s.name = false) →
      sinks.filter (fun s => reMatchStr p s.name) = m :: ms →
      sinkLoop (qs ++ p :: rest) sinks =
        qs.map (fun _ => Cmd.pactlListSinks) ++
          [Cmd.pactlListSinks, Cmd.pactlSetDefault m.name]) := by
  constructor
  · intro patterns sinks h
    induction patterns with
    | nil => rfl
    | cons q qs ih =>
      have hq : sinks.filter (fun s => reMatchStr q s.name) = [] := by
        rw [List.filter_eq_nil_iff]
        intro s hs hmatch
        exact absurd (h q (List.mem_cons_self q qs) s hs) (by simp [hmatch])
      simp only [sinkLoop, hq, List.map_cons]
      rw [ih (fun x hx s hs => h x (List.mem_cons_of_mem q hx) s hs)]
  · intro qs rest p sinks m ms hqs hfilter
    induction qs with
    | nil =>
      simp only [List.nil_append, sinkLoop, hfilter, List.map_nil]
    | cons q qs ih =>
      have hq : sinks.filter (fun s => reMatchStr q s.name) = [] := by
        rw [List.filter_eq_nil_iff]
        intro s hs hmatch
        exact absurd (hqs q (List.mem_cons_self q qs) s hs) (by simp [hmatch])
      simp only [List.cons_append, sinkLoop, hq, List.map_cons, List.cons_append]
      exact congrArg (Cmd.pactlListSinks :: .)
        (ih (fun x hx s hs => hqs x (List.mem_cons_of_mem q hx) s hs))

/-- The C6 settings: profile "p" over HDMI1 with the single sink pattern
"a.c". -/
def c6Settings : Settings := ⟨[], [("p", ⟨["a.c"], [("HDMI1", stEx)]⟩)]⟩

/-- The C6 screen: HDMI1 and eDP1 both connected and active, so profile "p"
(HDMI1 only) does not resolve as the current profile. -/
def c6Screen : Screen :=
  ⟨"0", ⟨1920, 1080⟩,
    [⟨"HDMI1", true, none, some cfgEx, false⟩, ⟨"eDP1", true, none, some cfgEx, false⟩]⟩

/-- The C6 environment: one available sink named "abc", no hooks. -/
def c6Env : Env := ⟨c6Screen, [⟨"abc", "", 0⟩], "", [], false, false⟩

/-- The C6 selector state, built by the selector's own update_state (the
current profile resolves to ""). -/
def c6Sel : ProfileSelector := mkProfileSelector c6Settings c6Env

/-- Recognizer for the set-default-sink command. -/
def Cmd.isSetDefault : Cmd → Bool
  | .pactlSetDefault _ => true
  | _ => false

/-- Counterexample to C6 as stated: the pattern "a.c" contains no "*" and is
not a literal substring of the sink name "abc", so under the claimed glob
semantics no sink matches and the default sink would be left unchanged; the
source treats the pattern as a regular expression ("." matches "b") and
issues a set-default-sink command for "abc" during apply_profile. -/
theorem sink_selection_glob_cex :
    (applyProfile c6Sel c6Env "p").2.filter Cmd.isSetDefault =
      [Cmd.pactlSetDefault "abc"] ∧
    specGlobMatch "a.c" "abc" = false := by
  refine ⟨rfl, rfl⟩

/-- Witness for the amended C6: a first pattern matching nothing is skipped
with only its sink query issued, and the second pattern selects the first
matching sink. -/
theorem sink_selection_spec_witness :
    sinkLoop ["zz", "a.c"] [⟨"abc", "", 0⟩] =
      [Cmd.pactlListSinks, Cmd.pactlListSinks, Cmd.pactlSetDefault "abc"] :=
  sink_selection_spec.2 ["zz"] [] "a.c" [⟨"abc", "", 0⟩] ⟨"abc", "", 0⟩ []
    (by decide) (by decide)

theorem toDictOutputs_fromDictOutputs
    (l : List (String × OutputStateDoc)) (res : List (String × OutputState))
    (hpc : ∀ x ∈ l, x.2.primary_candidate.isSome)
    (h : fromDictOutputs l = .ok res) :
    toDictOutputs res = l := by
  induction l generalizing res with
  | nil =>
    cases h
    rfl
  | cons x rest ih =>
    unfold fromDictOutputs at h
    cases hr : x.2.configuration.mode.refresh_rate with
    | none => rw [hr] at h; cases h
    | some q =>
      rw [hr] at h
      cases htl : fromDictOutputs rest with
      | error e => rw [htl] at h; cases h
      | ok tl =>
        rw [htl] at h
        cases h
        have hx := hpc x (List.mem_cons_self x rest)
        cases hpcx : x.2.primary_candidate with
        | none => rw [hpcx] at hx; cases hx
        | some b =>
          unfold toDictOutputs
          rw [List.map_cons]
          have hrest := ih tl (fun y hy => hpc y (List.mem_cons_of_mem x hy)) htl
          unfold toDictOutputs at hrest
          rw [hrest]
          simp only [hpcx, Option.getD_some]
          rw [← hr, ← hpcx]

theorem toDictProfiles_fromDictProfiles
    (l : List (String × ProfileDoc)) (res : List (String × Profile))
    (hpc : ∀ p ∈ l, ∀ x ∈ p.2.outputs, x.2.primary_candidate.isSome)
    (h : fromDictProfiles l = .ok res) :
    toDictProfiles res = l := by
  induction l generalizing res with
  | nil =>
    cases h
    rfl
  | cons x rest ih =>
    unfold fromDictProfiles at h
    cases houts : fromDictOutputs x.2.outputs with
    | error e => rw [houts] at h; cases h
    | ok outs =>
      rw [houts] at h
      cases htl : fromDictProfiles rest with
      | error e => rw [htl] at h; cases h
      | ok tl =>
        rw [htl] at h
        cases h
        have hout := toDictOutputs_fromDictOutputs x.2.outputs outs
          (hpc x (List.mem_cons_self x rest)) houts
        have hrest := ih tl (fun y hy => hpc y (List.mem_cons_of_mem x hy)) htl
        unfold toDictProfiles
        rw [List.map_cons]
        unfold toDictProfiles at hrest
        rw [hrest]
        simp only [hout]

/-- C3 (amended): deserialize-then-serialize reproduces the document for
every accepted settings document that spells the optional keys out: both
top-level keys present and every output state carrying an explicit
primary_candidate (refresh_rate must be present for the document to be
accepted at all). -/
theorem settings_roundtrip :
    ∀ (d : SettingsDoc) (s : Settings),
      Settings.fromDict d = .ok s →
      d.default_profiles.isSome →
      d.profiles.isSome →
      (∀ p ∈ d.profiles.getD [], ∀ x ∈ p.2.outputs, x.2.primary_candidate.isSome) →
      s.toDict = d := by
  intro d s h hdp hp hpc
  unfold Settings.fromDict at h
  cases hps : fromDictProfiles (d.profiles.getD []) with
  | error e => rw [hps] at h; cases h
  | ok ps =>
    rw [hps] at h
    cases h
    unfold Settings.toDict
    rw [toDictProfiles_fromDictProfiles _ _ hpc hps]
    cases d with
    | mk ddp dps =>
      cases ddp with
      | none => cases hdp
      | some l1 =>
        cases dps with
        | none => cases hp
        | some l2 => rfl

/-- Counterexample to C3 as stated: the empty document is accepted by
deserialization (both top-level keys default via .get, so from_dict yields
the empty Settings), but serialization spells the defaults out; the
round-trip is not the identity on it. -/
theorem settings_roundtrip_cex :
    Settings.fromDict ⟨none, none⟩ = .ok ⟨[], []⟩ ∧
    Settings.toDict ⟨[], []⟩ = ⟨some [], some []⟩ ∧
    Settings.toDict ⟨[], []⟩ ≠ (⟨none, none⟩ : SettingsDoc) := by
  refine ⟨rfl, rfl, by decide⟩

/-- The C3 witness document: every optional key explicit. -/
def exDocC3 : SettingsDoc :=
  ⟨some [⟨["eDP1"], "laptop"⟩],
    some [("laptop",
      ⟨["alsa.*"],
        [("eDP1", ⟨⟨⟨⟨1920, 1080⟩, some 60⟩, ⟨0, 0⟩⟩, some true⟩)]⟩)]⟩

/-- The Settings value exDocC3 deserializes to. -/
def exSettingsC3 : Settings :=
  ⟨[⟨["eDP1"], "laptop"⟩],
    [("laptop",
      ⟨["alsa.*"],
        [("eDP1", ⟨⟨⟨⟨1920, 1080⟩, some 60⟩, ⟨0, 0⟩⟩, true⟩)]⟩)]⟩

/-- Witness for the amended C3 at the explicit example document. -/
theorem settings_roundtrip_witness :
    Settings.toDict exSettingsC3 = exDocC3 :=
  settings_roundtrip exDocC3 exSettingsC3 rfl (by decide) (by decide) (by decide)

theorem descriptorBlocksAux_error_val (e : EDIDInfo) (idxs : List Nat)
    (e2 : ParseErr) (h : descriptorBlocksAux e idxs = .error e2) :
    e2 = .MalformedEdid := by
  induction idxs with
  | nil => cases h
  | cons i rest ih =>
    unfold descriptorBlocksAux at h
    by_cases h2 : (e.descriptorBlock i).take 2 = [0, 0]
    · rw [if_pos h2] at h
      by_cases h3 : (e.descriptorBlock i).getD 2 0 ≠ 0
      · rw [if_pos h3] at h
        cases h
        rfl
      · rw [if_neg h3] at h
        cases hx : descriptorBlocksAux e rest with
        | error e3 =>
          rw [hx] at h
          simp only [Except.map] at h
          cases h
          exact ih hx
        | ok bs =>
          rw [hx] at h
          simp only [Except.map] at h
          cases h
    · rw [if_neg h2] at h
      exact ih h

theorem mem_fourList_iff {i : Nat} : i ∈ ([0, 1, 2, 3] : List Nat) ↔ i < 4 := by
  simp only [List.mem_cons, List.not_mem_nil, or_false]
  omega

set_option maxRecDepth 4000 in
/-- C9: EDID decoding (the construction validation of __post_init__
together with the descriptor validation of descriptor_blocks) fails with
MalformedEdid exactly when the buffer is shorter than 128 bytes, or its
first 8 bytes differ from the magic header, or one of the four descriptor
slots starts with two zero bytes but carries a non-zero reserved byte; in
particular a 128-byte all-zero buffer (wrong header) fails. -/
theorem edid_decode_error_iff :
    (∀ raw : List Nat,
      edidDecode raw = .error .MalformedEdid ↔
        (raw.length < 128 ∨ raw.take 8 ≠ edidMagic ∨
          ∃ i, i < 4 ∧ EDIDInfo.badDescriptor ⟨raw⟩ i)) ∧
    edidDecode (List.replicate 128 0) = .error .MalformedEdid := by
  constructor
  · intro raw
    by_cases hdr : raw.length < 128 ∨ raw.take 8 ≠ edidMagic
    · constructor
      · intro _
        rcases hdr with h | h
        · exact Or.inl h
        · exact Or.inr (Or.inl h)
      · intro _
        unfold edidDecode mkEDIDInfo
        rw [if_pos hdr]
        rfl
    · have hok : mkEDIDInfo raw = .ok ⟨raw⟩ := by
        unfold mkEDIDInfo
        rw [if_neg hdr]
      have hde : edidDecode raw =
          Except.bind (EDIDInfo.descriptorBlocks ⟨raw⟩)
            (fun _ => Except.pure (⟨raw⟩ : EDIDInfo)) := by
        unfold edidDecode
        rw [hok]
        rfl
      have h1 : ¬raw.length < 128 := fun h => hdr (Or.inl h)
      have h2 : ¬raw.take 8 ≠ edidMagic := fun h => hdr (Or.inr h)
      constructor
      · intro h
        rw [hde] at h
        cases haux : EDIDInfo.descriptorBlocks ⟨raw⟩ with
        | ok bs =>
          rw [haux] at h
          simp only [Except.bind] at h
          cases h
        | error e3 =>
          have he3 := descriptorBlocksAux_error_val ⟨raw⟩ [0, 1, 2, 3] e3 haux
          subst he3
          rcases (descriptorBlocksAux_error_iff ⟨raw⟩ [0, 1, 2, 3]).mp haux with
            ⟨i, hmem, hbad⟩
          exact Or.inr (Or.inr ⟨i, mem_fourList_iff.mp hmem, hbad⟩)
      · intro h
        rcases h with h | h | ⟨i, hi, hbad⟩
        · exact absurd h h1
        · exact absurd h h2
        · have haux : descriptorBlocksAux ⟨raw⟩ [0, 1, 2, 3] = .error .MalformedEdid :=
            (descriptorBlocksAux_error_iff ⟨raw⟩ [0, 1, 2, 3]).mpr
              ⟨i, mem_fourList_iff.mpr hi, hbad⟩
          rw [hde]
          show Except.bind (descriptorBlocksAux ⟨raw⟩ [0, 1, 2, 3]) _ = _
          rw [haux]
          rfl
  · rfl

/-- Witness for C9: a buffer with the right header but a descriptor slot
whose reserved byte is set fails with MalformedEdid, through the iff. -/
def badDescriptorRawC9 : List Nat :=
  edidMagic ++ List.replicate 48 0 ++ [1] ++ List.replicate 71 0

theorem edid_decode_error_iff_witness :
    edidDecode badDescriptorRawC9 = .error .MalformedEdid :=
  (edid_decode_error_iff.1 badDescriptorRawC9).mpr
    (Or.inr (Or.inr ⟨0, by omega, by decide⟩))

/-- The C10 report: a screen header and a connected output that reports
only an EDID block (no mode lines). -/
def edidReportLines : List String :=
  [ "Screen 0: minimum 320 x 200, current 1920 x 1080, maximum 8192 x 8192",
    "HDMI1 connected",
    "\tEDID:",
    "\t\t00ffffffffffff000000000000000000",
    "\t\t00000000000000000000000000000000",
    "\t\t00000000000000000000000000000000",
    "\t\t00000000000000000000000000000000",
    "\t\t00000000000000000000000000000000",
    "\t\t00000000000000000000000000000000",
    "\t\t00000000000000000000000000000000",
    "\t\t00000000000000000000000000000000" ]

/-- The EDID bytes of the C10 report: the magic header then zeros. -/
def edidZeroRaw : List Nat := edidMagic ++ List.replicate 120 0

/-- The monitor the C10 report produces: EDID only, no reported modes, no
preferred mode. -/
def edidOnlyMonitor : Monitor := ⟨[], none, some ⟨edidZeroRaw⟩⟩

/-- The screen the C10 report parses to. -/
def edidReportScreen : Screen :=
  ⟨"0", ⟨1920, 1080⟩, [⟨"HDMI1", true, some edidOnlyMonitor, none, false⟩]⟩

set_option maxRecDepth 10000 in
/-- C10: default_mode is partial — it yields nothing (an IndexError in the
source) exactly on monitors with no preferred mode and an empty reported
set — and such monitors are reachable through the public parser, which
builds a Monitor for an output that accumulated only EDID bytes. -/
theorem default_mode_partial :
    (∀ m : Monitor, m.preferred_mode = none → m.reported_modes = [] →
      m.defaultMode = none) ∧
    (parseScreen edidReportLines = .ok edidReportScreen ∧
      edidReportScreen.outputs.head? =
        some ⟨"HDMI1", true, some edidOnlyMonitor, none, false⟩ ∧
      edidOnlyMonitor.reported_modes = [] ∧
      edidOnlyMonitor.preferred_mode = none ∧
      edidOnlyMonitor.defaultMode = none) := by
  constructor
  · intro m h1 h2
    simp [Monitor.defaultMode, Monitor.sortedModes, h1, h2, sortModesDesc]
  · exact ⟨rfl, rfl, rfl, rfl, rfl⟩

/-- Witness for C10 at the parser-produced monitor. -/
theorem default_mode_partial_witness :
    edidOnlyMonitor.defaultMode = none :=
  default_mode_partial.1 edidOnlyMonitor rfl rfl

theorem modeLtB_false_rate {a b : Mode} (h : modeLtB a b = false)
    (hres : a.resolution = b.resolution) :
    rateLtB a.refresh_rate b.refresh_rate = false := by
  unfold modeLtB at h
  rcases Bool.or_eq_false_iff.mp h with ⟨-, h2⟩
  rcases Bool.and_eq_false_iff.mp h2 with h3 | h3
  · exact absurd hres (by simpa using h3)
  · exact h3

/-- The 1920x1080 at 60 Hz mode of the C5 example. -/
def modeC5at60 : Mode := ⟨⟨1920, 1080⟩, some 60⟩

/-- The 1920x1080 at 30 Hz mode of the C5 example. -/
def modeC5at30 : Mode := ⟨⟨1920, 1080⟩, some 30⟩

/-- The C5 example monitor: 60 Hz current and preferred, 30 Hz also
reported. -/
def exampleMonitorC5 : Monitor := ⟨[modeC5at60, modeC5at30], some modeC5at60, none⟩

/-- C5: sorted_modes lists the preferred mode first, then the other
reported modes at the preferred resolution in descending refresh-rate
order, then the remaining reported modes in descending (resolution,
refresh-rate) order; default_mode is the preferred mode when present, else
the head of sorted_modes; and the concrete 60/30 Hz example sorts 60 Hz
first with default 1920x1080 at 60. -/
theorem sorted_modes_spec :
    (∀ (m : Monitor) (p : Mode), m.preferred_mode = some p →
      (∀ x ∈ m.reported_modes, x.refresh_rate.isSome) →
      ∃ A B, m.sortedModes = p :: (A ++ B) ∧
        A.Perm ((m.reported_modes.filter (fun x => !(x == p))).filter
          (fun x => x.resolution == p.resolution)) ∧
        A.Sorted (fun a b => rateLtB a.refresh_rate b.refresh_rate = false) ∧
        B.Perm (m.reported_modes.filter
          (fun x => !(x == p) && !(x.resolution == p.resolution))) ∧
        B.Sorted modeDescR ∧
        m.defaultMode = some p) ∧
    (∀ m : Monitor, m.preferred_mode = none →
      (∀ x ∈ m.reported_modes, x.refresh_rate.isSome) →
      m.sortedModes.Perm m.reported_modes ∧
      m.sortedModes.Sorted modeDescR ∧
      m.defaultMode = m.sortedModes.head?) ∧
    (exampleMonitorC5.sortedModes = [modeC5at60, modeC5at30] ∧
      exampleMonitorC5.defaultMode = some modeC5at60) := by
  refine ⟨?_, ?_, by decide, by decide⟩
  · intro m p hpref _hrates
    classical
    set L1 := (m.reported_modes.filter (fun x => !(x == p))).filter
      (fun x => x.resolution == p.resolution) with hL1
    set A := sortModesDesc L1 with hA
    set B := sortModesDesc (m.reported_modes.filter (fun x => !(x ∈ p :: A))) with hB
    have hAperm : A.Perm L1 := sortModesDesc_perm L1
    have hmemA : ∀ x, x ∈ A ↔ x ∈ L1 := fun x => hAperm.mem_iff
    have hresA : ∀ a ∈ A, a.resolution = p.resolution := by
      intro a ha
      have := (hmemA a).mp ha
      rw [hL1, List.mem_filter] at this
      simpa using this.2
    refine ⟨A, B, ?_, hAperm, ?_, ?_, sortModesDesc_sorted _, ?_⟩
    · show m.sortedModes = p :: (A ++ B)
      unfold Monitor.sortedModes
      rw [hpref]
      rw [List.cons_append]
    · have hsorted : A.Sorted modeDescR := sortModesDesc_sorted L1
      refine List.Pairwise.imp_of_mem ?_ hsorted
      intro a b ha hb hr
      exact modeLtB_false_rate hr ((hresA a ha).trans (hresA b hb).symm)
    · have hfe : m.reported_modes.filter (fun x => !(x ∈ p :: A)) =
          m.reported_modes.filter (fun x => !(x == p) && !(x.resolution == p.resolution)) := by
        refine List.filter_congr ?_
        intro x hx
        by_cases hxp : x = p
        · subst hxp
          simp [List.mem_cons]
        · by_cases hres : x.resolution = p.resolution
          · have hxL1 : x ∈ L1 := by
              rw [hL1, List.mem_filter, List.mem_filter]
              refine ⟨⟨hx, by simp [hxp]⟩, by simp [hres]⟩
            have hxA : x ∈ p :: A := List.mem_cons_of_mem p ((hmemA x).mpr hxL1)
            simp [hxA, hres]
          · have hxA : ¬x ∈ p :: A := by
              rw [List.mem_cons]
              rintro (rfl | hmem)
              · exact hxp rfl
              · have := (hmemA x).mp hmem
                rw [hL1, List.mem_filter] at this
                exact hres (by simpa using this.2)
            simp [hxA, hxp, hres]
      rw [hB, hfe]
      exact sortModesDesc_perm _
    · unfold Monitor.defaultMode
      rw [hpref]
  · intro m hpref _hrates
    have hfe : m.reported_modes.filter (fun x => !(x ∈ ([] : List Mode))) =
        m.reported_modes := by
      refine List.filter_congr ?_ |>.trans (List.filter_true _)
      intro x _
      simp
    have hsm : m.sortedModes = sortModesDesc m.reported_modes := by
      unfold Monitor.sortedModes
      rw [hpref]
      rw [List.nil_append, hfe]
    refine ⟨?_, ?_, ?_⟩
    · rw [hsm]
      exact sortModesDesc_perm _
    · rw [hsm]
      exact sortModesDesc_sorted _
    · unfold Monitor.defaultMode
      rw [hpref]

/-- Witness for C5: the concrete default mode obtained through the general
statement. -/
theorem sorted_modes_spec_witness :
    exampleMonitorC5.defaultMode = some modeC5at60 := by
  obtain ⟨A, B, -, -, -, -, -, h6⟩ :=
    sorted_modes_spec.1 exampleMonitorC5 modeC5at60 rfl (by decide)
  exact h6

end Gui
